import Mathlib

/-!
Shallow embedding of the core of `nu_plugin_mssql` (connection pooling,
configuration building, value marshalling, and the streaming query pipeline),
together with theorems checking the natural-language specification against it.

The Rust sources embedded here are:
  * `src/data/connection_args.rs`  (`ConnectionArgs`, its `PartialEq` and `Hash`)
  * `src/data/connection_pool.rs`  (`ConnectionPool::create_connection`, `get`,
                                    the free `get_auth_method`)
  * `src/data/connection.rs`       (`ConnectionSettings::get_auth_method`)
  * `src/db.rs`                    (`get_auth_method`, `parse_value`, `parse_date`,
                                    `run_query`)
  * `src/data/db.rs`               (`parse_value`, `parse_time`, `parse_datetime`,
                                    `TableIterator`)
  * `src/data/mssql_client.rs`     (`MssqlClient::run_query`)
  * `src/commands/mod.rs`          (`handle_err`)
  * `src/commands/query.rs`        (`handle_err`)

External collaborators (the `nu_protocol` value type and the `tiberius` wire
types) are modelled to the extent the embedded code observes them; each such
model carries a doc comment describing the modelling choice.
-/

/-- Source location from `nu_protocol::Span`: a pair of byte offsets.  The Rust
struct derives `PartialEq`/`Hash` structurally, which `deriving DecidableEq`
mirrors.  The field `stop` embeds the Rust field named `end` (a Lean keyword). -/
structure Span where
  start : Nat
  stop : Nat
deriving DecidableEq, Repr

/-- Embeds `Span::unknown()`: the span with both offsets zero. -/
def Span.unknown : Span := ⟨0, 0⟩

/-- Payload of a `nu_protocol::Value::Float`.  Floating-point semantics are
outside the embedding; the payload records, injectively, which bit pattern the
value was built from and by which (exact or rounding) conversion.  The `f32`
to `f64` cast performed by the marshaller is exact in Rust, so keeping the
provenance tag loses no distinctions the embedded code could observe.  The
model compares payloads structurally, so the `NaN ≠ NaN` behaviour of `f64`
equality is not modelled; no claim below compares float values. -/
inductive FloatVal where
  | ofF32 (bits : Nat)
  | ofF64 (bits : Nat)
  | ofNumeric (val : Int)
deriving DecidableEq, Repr

/-- The `nu_protocol::Value` sum type, restricted to the variants the embedded
code constructs or matches: strings, ints, floats, bools, binary blobs, dates
(a naive timestamp paired with the explicit UTC offset in seconds), durations
(nanoseconds), nothing/null, records (ordered column/value lists), and error
values.  Every variant carries its span, as in the Rust enum. -/
inductive Value where
  | string (val : String) (span : Span)
  | int (val : Int) (span : Span)
  | float (val : FloatVal) (span : Span)
  | bool (val : Bool) (span : Span)
  | binary (val : List Nat) (span : Span)
  | date (naive : Int) (offsetSeconds : Int) (span : Span)
  | duration (val : Int) (span : Span)
  | nothing (span : Span)
  | record (val : List (String × Value)) (span : Span)
  | error (msg : String) (span : Span)

/-- Embeds `Value::span()`: returns the span carried by the variant. -/
def Value.span : Value → Span
  | .string _ sp => sp
  | .int _ sp => sp
  | .float _ sp => sp
  | .bool _ sp => sp
  | .binary _ sp => sp
  | .date _ _ sp => sp
  | .duration _ sp => sp
  | .nothing sp => sp
  | .record _ sp => sp
  | .error _ sp => sp

/-- Embeds `Value::is_error()` (variant test used to state what a consumer
observes). -/
def Value.isError : Value → Bool
  | .error _ _ => true
  | _ => false

mutual

/-- Equality of `nu_protocol::Value`s.  The library implements `PartialEq` for
`Value` by comparing the payloads of like variants and ignoring the carried
spans (`internal_span` does not participate in `partial_cmp`, on which `eq` is
defined); records compare column names and values pairwise in order.  This is
the equality `ConnectionArgs::eq` invokes on its `Option<Value>` fields. -/
def valueEq : Value → Value → Bool
  | .string a _, .string b _ => a == b
  | .int a _, .int b _ => a == b
  | .float a _, .float b _ => a == b
  | .bool a _, .bool b _ => a == b
  | .binary a _, .binary b _ => a == b
  | .date na oa _, .date nb ob _ => na == nb && oa == ob
  | .duration a _, .duration b _ => a == b
  | .nothing _, .nothing _ => true
  | .record xs _, .record ys _ => pairsEq xs ys
  | .error a _, .error b _ => a == b
  | _, _ => false

/-- Pairwise comparison of record columns used by `valueEq`. -/
def pairsEq : List (String × Value) → List (String × Value) → Bool
  | [], [] => true
  | (n₁, v₁) :: xs, (n₂, v₂) :: ys => n₁ == n₂ && valueEq v₁ v₂ && pairsEq xs ys
  | _, _ => false

end

/-- Equality on `Option<Value>` as Rust derives it: both absent, or both
present with equal (`valueEq`) payloads. -/
def optValueEq : Option Value → Option Value → Bool
  | none, none => true
  | some a, some b => valueEq a b
  | _, _ => false

mutual

/-- Replaces every span inside a value by `Span.unknown`; the normal form under
which `valueEq` is shown to be ordinary equality. -/
def Value.stripSpans : Value → Value
  | .string a _ => .string a Span.unknown
  | .int a _ => .int a Span.unknown
  | .float a _ => .float a Span.unknown
  | .bool a _ => .bool a Span.unknown
  | .binary a _ => .binary a Span.unknown
  | .date n o _ => .date n o Span.unknown
  | .duration a _ => .duration a Span.unknown
  | .nothing _ => .nothing Span.unknown
  | .record xs _ => .record (stripPairs xs) Span.unknown
  | .error a _ => .error a Span.unknown

/-- Span-stripping for record columns. -/
def stripPairs : List (String × Value) → List (String × Value)
  | [] => []
  | (n, v) :: xs => (n, v.stripSpans) :: stripPairs xs

end

mutual

theorem valueEq_iff_stripSpans (a b : Value) :
    valueEq a b = true ↔ a.stripSpans = b.stripSpans := by
  cases a <;> cases b <;>
    simp only [valueEq, Value.stripSpans, Value.string.injEq, Value.int.injEq,
      Value.float.injEq, Value.bool.injEq, Value.binary.injEq, Value.date.injEq,
      Value.duration.injEq, Value.record.injEq, Value.error.injEq,
      Bool.and_eq_true, beq_iff_eq, and_true, true_iff, iff_true, true_and,
      reduceCtorEq, Bool.false_eq_true, false_iff, iff_false, not_false_iff] <;>
    first
      | rfl
      | exact fun h => Value.noConfusion h
      | exact pairsEq_iff_stripPairs _ _

theorem pairsEq_iff_stripPairs (xs ys : List (String × Value)) :
    pairsEq xs ys = true ↔ stripPairs xs = stripPairs ys := by
  match xs, ys with
  | [], [] => simp [pairsEq, stripPairs]
  | [], _ :: _ => simp [pairsEq, stripPairs]
  | _ :: _, [] => simp [pairsEq, stripPairs]
  | (n₁, v₁) :: xs, (n₂, v₂) :: ys =>
    simp only [pairsEq, stripPairs, List.cons.injEq, Prod.mk.injEq,
      Bool.and_eq_true, beq_iff_eq]
    rw [valueEq_iff_stripSpans v₁ v₂, pairsEq_iff_stripPairs xs ys]

end

theorem valueEq_refl (a : Value) : valueEq a a = true := by
  simp [valueEq_iff_stripSpans]

theorem optValueEq_iff (a b : Option Value) :
    optValueEq a b = true ↔ a.map Value.stripSpans = b.map Value.stripSpans := by
  cases a <;> cases b <;> simp [optValueEq, valueEq_iff_stripSpans]

theorem optValueEq_refl (a : Option Value) : optValueEq a a = true := by
  simp [optValueEq_iff]

/-- Rendering of a span as it appears inside `Debug` output of a value,
`Span \x7b start: .., end: .. \x7d`. -/
def Span.debugString (s : Span) : String :=
  "Span \x7b start: " ++ toString s.start ++ ", end: " ++ toString s.stop ++ " \x7d"

/-- Rendering of a float payload inside `Debug` output.  The numeric rendering
of `f64` is outside the embedding; the model renders the carried provenance
injectively, which preserves exactly the distinctions the bit patterns make. -/
def FloatVal.debugString : FloatVal → String
  | .ofF32 b => "f32#" ++ toString b
  | .ofF64 b => "f64#" ++ toString b
  | .ofNumeric v => "numeric#" ++ toString v

mutual

/-- Embeds `nu_protocol::Value::to_debug_string`, which is the derived `Debug`
rendering `format!("\x7b:?\x7d", self)` of the value.  Crucially, the `Debug`
rendering includes the variant's `internal_span` (the derived `Debug` prints
every field), while `valueEq` ignores it.  String payloads are rendered without
`Debug` character escaping, which is injective on strings free of escapes and
irrelevant to every theorem below. -/
def Value.toDebugString : Value → String
  | .string a sp => "String \x7b val: \"" ++ a ++ "\", internal_span: " ++ sp.debugString ++ " \x7d"
  | .int a sp => "Int \x7b val: " ++ toString a ++ ", internal_span: " ++ sp.debugString ++ " \x7d"
  | .float a sp => "Float \x7b val: " ++ a.debugString ++ ", internal_span: " ++ sp.debugString ++ " \x7d"
  | .bool a sp => "Bool \x7b val: " ++ toString a ++ ", internal_span: " ++ sp.debugString ++ " \x7d"
  | .binary a sp => "Binary \x7b val: " ++ toString a ++ ", internal_span: " ++ sp.debugString ++ " \x7d"
  | .date n o sp => "Date \x7b val: " ++ toString n ++ "+" ++ toString o ++ ", internal_span: " ++ sp.debugString ++ " \x7d"
  | .duration a sp => "Duration \x7b val: " ++ toString a ++ ", internal_span: " ++ sp.debugString ++ " \x7d"
  | .nothing sp => "Nothing \x7b internal_span: " ++ sp.debugString ++ " \x7d"
  | .record xs sp => "Record \x7b val: [" ++ pairsDebugString xs ++ "], internal_span: " ++ sp.debugString ++ " \x7d"
  | .error a sp => "Error \x7b error: " ++ a ++ ", internal_span: " ++ sp.debugString ++ " \x7d"

/-- Column-list rendering used by `Value.toDebugString` on records. -/
def pairsDebugString : List (String × Value) → String
  | [] => ""
  | (n, v) :: xs => "(\"" ++ n ++ "\", " ++ v.toDebugString ++ "), " ++ pairsDebugString xs

end

/-- A row as built by the query loop: `nu_protocol::Record`, an ordered list of
column-name/value pairs. -/
def Record : Type := List (String × Value)

/-- Embeds `Record::insert(col, val)`: if a column of that name already exists
its value is replaced in place, otherwise the pair is pushed at the end
(duplicate column names silently overwrite). -/
def Record.insert (r : Record) (col : String) (v : Value) : Record :=
  match r with
  | [] => [(col, v)]
  | (c, w) :: rest =>
    if c = col then (c, v) :: rest else (c, w) :: Record.insert rest col v

/-- The empty record, `Record::new()`. -/
def Record.new : Record := []

/-- Embeds `ConnectionArgs` from `src/data/connection_args.rs`: the pool key.
Optional fields hold the caller-supplied `nu_protocol::Value`s; `trust_cert`
records only the flag's span (presence); `buffer_size` and `reference_count`
are machine words, modelled as `Nat`.  The Rust field named `instance` is a
Lean keyword and is embedded as `instanceName`. -/
structure ConnectionArgs where
  server : Option Value
  instanceName : Option Value
  database : Option Value
  user : Option Value
  password : Option Value
  trust_cert : Option Span
  buffer_size : Nat
  reference_count : Nat

/-- Embeds `impl PartialEq for ConnectionArgs` (`src/data/connection_args.rs`
lines 20-30): compares `server`, `instance`, `database`, `user`, `password`,
`trust_cert` and `buffer_size`; `reference_count` is not compared. -/
def ConnectionArgs.eq (a b : ConnectionArgs) : Bool :=
  optValueEq a.server b.server
    && optValueEq a.instanceName b.instanceName
    && optValueEq a.database b.database
    && optValueEq a.user b.user
    && optValueEq a.password b.password
    && a.trust_cert == b.trust_cert
    && a.buffer_size == b.buffer_size

/-- One datum fed to the `Hasher` by `impl Hash for ConnectionArgs`.  A `Hash`
implementation is a function of the sequence of data it writes to the hasher;
two keys are guaranteed the same hash value exactly when they feed the same
sequence, so the sequence is the faithful shallow embedding of the hash. -/
inductive HashToken where
  | str (s : String)
  | bit (b : Bool)
  | nat (n : Nat)
deriving DecidableEq, Repr

/-- Embeds `impl Hash for ConnectionArgs` (`src/data/connection_args.rs` lines
34-59): for each of `server`, `instance`, `database`, `user`, `password` that
is present, the `to_debug_string()` rendering of the value is hashed; then
`trust_cert.is_some()` and `buffer_size` are hashed.  `reference_count` is not
hashed.  The result is the sequence of data written to the hasher. -/
def ConnectionArgs.hashInput (a : ConnectionArgs) : List HashToken :=
  ((a.server.map fun v => HashToken.str v.toDebugString).toList)
    ++ ((a.instanceName.map fun v => HashToken.str v.toDebugString).toList)
    ++ ((a.database.map fun v => HashToken.str v.toDebugString).toList)
    ++ ((a.user.map fun v => HashToken.str v.toDebugString).toList)
    ++ ((a.password.map fun v => HashToken.str v.toDebugString).toList)
    ++ [HashToken.bit a.trust_cert.isSome, HashToken.nat a.buffer_size]

/-- Modelled from the spec: a `Connection` (defined in a repository file that
is not part of the provided sources; constructed and cloned by
`ConnectionPool::create_connection`) owns one live, authenticated session and
an in-use reference count.  The session handle is abstracted to an identifier;
cloning a `Connection` in Rust clones the shared handle, which for this pure
model is the identity. -/
structure Connection where
  sessionId : Nat
  reference_count : Nat
deriving DecidableEq, Repr

/-- Key agreement used by the pool's `HashMap<ConnectionArgs, Connection>`:
an existing entry is found by a probe key exactly when it lives in the probe's
hash bucket (which requires the same hasher input) and compares equal under
`ConnectionArgs::eq`.  Collisions between distinct hasher inputs are not
modelled; they can only merge buckets, and both lookup and replacement check
`eq` in addition, so this under-approximating bucket test is exact for every
theorem below (which only ever probes with structurally identical keys). -/
def keyMatches (existing probe : ConnectionArgs) : Bool :=
  decide (existing.hashInput = probe.hashInput) && ConnectionArgs.eq existing probe

/-- The pool's map, `HashMap<ConnectionArgs, Connection>`, as an association
list (insertion order). -/
def PoolMap : Type := List (ConnectionArgs × Connection)

/-- Embeds `HashMap::insert(key, value)`: if an entry matching `key` exists,
its value is replaced (the stored key is kept, as `HashMap::insert` documents);
otherwise the new pair is added. -/
def PoolMap.insert (m : PoolMap) (k : ConnectionArgs) (c : Connection) : PoolMap :=
  match m with
  | [] => [(k, c)]
  | (k', c') :: rest =>
    if keyMatches k' k then (k', c) :: rest else (k', c') :: PoolMap.insert rest k c

/-- Embeds the lookup inside `ConnectionPool::get(args, increment)` (lock
acquisition aside): finds the entry matching `args`, optionally increments its
stored reference count, and returns a clone of the (updated) connection
together with the updated map. -/
def PoolMap.get (m : PoolMap) (args : ConnectionArgs) (increment : Bool) :
    PoolMap × Option Connection :=
  match m with
  | [] => ([], none)
  | (k', c') :: rest =>
    if keyMatches k' args then
      let c := if increment then { c' with reference_count := c'.reference_count + 1 } else c'
      ((k', c) :: rest, some c)
    else
      let (rest', r) := PoolMap.get rest args increment
      ((k', c') :: rest', r)

/-- Embeds the insertion-and-return tail of `ConnectionPool::create_connection`
(`src/data/connection_pool.rs` lines 37-71), after the connect-and-authenticate
sequence has produced the newly built connection `conn` (the config, stream and
handshake phases perform network I/O and are abstracted into that parameter;
their error returns leave the map untouched and are not modelled here).  The
code runs `lock.insert(args, connection.clone())`, discards the value `insert`
returns, and returns `connection` — the logging and the GC-disable signal to
the host are side effects with no bearing on the map or the result. -/
def ConnectionPool.create_connection (m : PoolMap) (args : ConnectionArgs)
    (conn : Connection) : PoolMap × Connection :=
  (PoolMap.insert m args conn, conn)

/-- Authentication method from the `tiberius` client library, as the embedded
code constructs and matches it.  `AuthMethod::sql_server(u, p)` builds the
`SqlServer` variant carrying both credentials. -/
inductive AuthMethod where
  | SqlServer (user : String) (password : String)
  | Windows (user : String) (password : String)
  | Integrated
  | None
  | AADToken (token : String)
deriving DecidableEq, Repr

/-- Modelled from the spec: the `ConnectionError` taxonomy (its enum definition
lives in a repository file not among the provided sources; its four variants
are fixed by the present code, which constructs them in
`ConnectionPool::create_connection` and matches them exhaustively in both
`handle_err` functions): a credential-shape error carrying the offending
field's span, a server-rejected login carrying the attempted auth method, a
transport setup failure, and any other handshake failure.  The payloads of the
last two are `tiberius` error values, embedded as their display strings. -/
inductive ConnectionError where
  | UserWithoutPassword (span : Span)
  | LoginFailed (auth : AuthMethod)
  | SetupError (error : String)
  | ConnectionError (error : String)
deriving DecidableEq, Repr

/-- The `nu_protocol::LabeledError` surface relevant here: a main message plus
labelled spans, as built by `LabeledError::new(..)` and `.with_label(..)`. -/
structure LabeledError where
  msg : String
  labels : List (String × Span)
deriving DecidableEq, Repr

/-- Embeds the free `get_auth_method` of `src/data/connection_pool.rs` (lines
138-152), compiled for the non-Windows platform family, whose fallback arm is
`Ok(AuthMethod::None)` (on Windows it is `AuthMethod::Integrated`).  Match arms
in source order: both credentials as strings; any user with a string password
(the `"sa"` default); a present user with an absent password (the binder is
named `password` in the source but holds the user value); everything else. -/
def Pool.get_auth_method (args : ConnectionArgs) :
    Except ConnectionError AuthMethod :=
  match args.user, args.password with
  | some (Value.string user _), some (Value.string password _) =>
    .ok (.SqlServer user password)
  | _, some (Value.string password _) => .ok (.SqlServer "sa" password)
  | some user, none => .error (.UserWithoutPassword user.span)
  | _, _ => .ok .None

/-- Embeds `ConnectionSettings` as defined identically in
`src/data/connection.rs` and `src/query.rs`: the caller-supplied connection
parameters, without the pool's `reference_count`. -/
structure ConnectionSettings where
  server : Option Value
  instanceName : Option Value
  database : Option Value
  user : Option Value
  password : Option Value
  trust_cert : Option Span
  buffer_size : Nat

/-- Embeds `ConnectionSettings::get_auth_method` (`src/data/connection.rs`
lines 141-155), compiled for the non-Windows family (fallback
`Ok(AuthMethod::None)`).  Unlike the pool's version, a present password with an
absent username is rejected with an invalid-credentials error labelled at the
password's span. -/
def ConnectionSettings.get_auth_method (s : ConnectionSettings) :
    Except LabeledError AuthMethod :=
  match s.user, s.password with
  | some (Value.string user _), some (Value.string password _) =>
    .ok (.SqlServer user password)
  | some username, none =>
    .error ⟨"Invalid credentials", [("Username specified without password", username.span)]⟩
  | none, some password =>
    .error ⟨"Invalid credentials", [("Password specified without username", password.span)]⟩
  | _, _ => .ok .None

/-- Embeds the free `get_auth_method` of `src/db.rs` (lines 16-30), which is
textually the same match as `ConnectionSettings::get_auth_method`, again with
the non-Windows fallback `Ok(AuthMethod::None)`. -/
def Db.get_auth_method (args : ConnectionSettings) :
    Except LabeledError AuthMethod :=
  match args.user, args.password with
  | some (Value.string user _), some (Value.string password _) =>
    .ok (.SqlServer user password)
  | some username, none =>
    .error ⟨"Invalid credentials", [("Username specified without password", username.span)]⟩
  | none, some password =>
    .error ⟨"Invalid credentials", [("Password specified without username", password.span)]⟩
  | _, _ => .ok .None

/-- Outcome of the external `NaiveDateTime::from_sql` decode of a datetime wire
payload (`tiberius`/`chrono`, outside this repository): the calendar arithmetic
itself is opaque to the embedded code, so the wire payload is represented by
the decode outcome it produces — a naive timestamp, an in-range failure
(`Ok(None)`), or a decode error with its message. -/
inductive DtWire where
  | decoded (naive : Int)
  | invalid
  | failed (msg : String)
deriving DecidableEq, Repr

/-- The `tiberius::time::Time` wire struct: a count of sub-second increments
since midnight (`u64`) and a scale in digits of precision (`u8`). -/
structure TimeW where
  increments : Nat
  scale : Nat
deriving DecidableEq, Repr

/-- The `tiberius` arbitrary-precision decimal wire struct, of which the
embedded code reads `numeric.value()` (the raw scaled integer). -/
structure NumericW where
  value : Int
  scale : Nat
deriving DecidableEq, Repr

/-- The `tiberius::ColumnData` wire-type union, with exactly the eighteen
variants the marshaller in `src/data/db.rs` matches, each carrying `Option`al
payloads (`None` is the SQL null).  Integer payloads are the mathematical
integers the machine words denote; float payloads are opaque bit patterns
(see `FloatVal`); GUIDs and XML are carried as their string forms, which is
all the embedded code reads of them (`guid.to_string()`, `xml.to_string()`);
datetime payloads carry their external decode outcome (see `DtWire`). -/
inductive ColumnData where
  | Binary (val : Option (List Nat))
  | Bit (val : Option Bool)
  | String (val : Option String)
  | U8 (val : Option Nat)
  | I16 (val : Option Int)
  | I32 (val : Option Int)
  | I64 (val : Option Int)
  | F32 (val : Option Nat)
  | F64 (val : Option Nat)
  | Date (val : Option DtWire)
  | Time (val : Option TimeW)
  | DateTime (val : Option DtWire)
  | DateTime2 (val : Option DtWire)
  | DateTimeOffset (val : Option DtWire)
  | SmallDateTime (val : Option DtWire)
  | Guid (val : Option String)
  | Numeric (val : Option NumericW)
  | Xml (val : Option String)
deriving DecidableEq, Repr

/-- Alias for the root string type, usable inside the `ColumnData` namespace
where the constructor of the same name shadows it. -/
abbrev Str : Type := String

/-- Injective rendering standing in for the `Debug` output of a `ColumnData`
cell; it is interpolated into the error message of the fallback arm of the old
marshaller (`src/db.rs`), whose exact text no theorem below inspects. -/
def ColumnData.debugString : ColumnData → Str
  | .Binary v => "Binary(" ++ toString (v.map toString) ++ ")"
  | .Bit v => "Bit(" ++ toString (v.map toString) ++ ")"
  | .String v => "String(" ++ toString v ++ ")"
  | .U8 v => "U8(" ++ toString (v.map toString) ++ ")"
  | .I16 v => "I16(" ++ toString (v.map toString) ++ ")"
  | .I32 v => "I32(" ++ toString (v.map toString) ++ ")"
  | .I64 v => "I64(" ++ toString (v.map toString) ++ ")"
  | .F32 v => "F32(" ++ toString (v.map toString) ++ ")"
  | .F64 v => "F64(" ++ toString (v.map toString) ++ ")"
  | .Date v => "Date(" ++ toString (v.map repr) ++ ")"
  | .Time v => "Time(" ++ toString (v.map repr) ++ ")"
  | .DateTime v => "DateTime(" ++ toString (v.map repr) ++ ")"
  | .DateTime2 v => "DateTime2(" ++ toString (v.map repr) ++ ")"
  | .DateTimeOffset v => "DateTimeOffset(" ++ toString (v.map repr) ++ ")"
  | .SmallDateTime v => "SmallDateTime(" ++ toString (v.map repr) ++ ")"
  | .Guid v => "Guid(" ++ toString v ++ ")"
  | .Numeric v => "Numeric(" ++ toString (v.map repr) ++ ")"
  | .Xml v => "Xml(" ++ toString v ++ ")"

/-- Embeds `NaiveDateTime::from_sql(data)` as the marshallers call it: on the
datetime variants it surfaces the recorded decode outcome (a SQL null decodes
to `Ok(None)`); on any other variant the library reports a conversion error. -/
def NaiveDateTime.from_sql (data : ColumnData) : Except String (Option Int) :=
  match data with
  | .Date v | .DateTime v | .DateTime2 v | .DateTimeOffset v | .SmallDateTime v =>
    match v with
    | none => .ok none
    | some (.decoded n) => .ok (some n)
    | some .invalid => .ok none
    | some (.failed e) => .error e
  | _ => .error "conversion failure"

namespace DataDb

/-- Embeds `parse_datetime` of `src/data/db.rs` (lines 67-85): decode a naive
timestamp via `NaiveDateTime::from_sql`, then reinterpret it with the fixed
zero offset `FixedOffset::east_opt(0)` (which is always `Some`, embedded as
the literal offset 0); a missing or failed decode is a marshalling error. -/
def parse_datetime (data : ColumnData) : Except LabeledError Value :=
  match NaiveDateTime.from_sql data with
  | .ok (some naive) => .ok (.date naive 0 Span.unknown)
  | .ok none => .error ⟨"Failed to parse datetime", [("Invalid datetime", Span.unknown)]⟩
  | .error e => .error ⟨"Failed to parse datetime", [(e, Span.unknown)]⟩

/-- Embeds `parse_time` of `src/data/db.rs` (lines 54-65): the duration in
nanoseconds is `increments * 10u64.pow(9 - scale)`, computed in `u64` (hence
reduced modulo `2 ^ 64`; for the protocol's scales, 0-7, no reduction occurs)
and then cast `as i64` into the duration value.  The `u32` subtraction
`9 - scale` is embedded as truncated subtraction. -/
def parse_time (time : TimeW) : Except LabeledError Value :=
  let duration : Nat := (time.increments * 10 ^ (9 - time.scale)) % 2 ^ 64
  let asI64 : Int := if duration < 2 ^ 63 then (duration : Int) else (duration : Int) - 2 ^ 64
  .ok (.duration asI64 Span.unknown)

/-- Embeds `parse_value` of `src/data/db.rs` (lines 11-52): the total
marshaller from a wire cell to a generic value.  Every null payload maps to
the nothing value; integers widen to `i64` (already mathematical integers
here); floats widen to `f64` (provenance-tagged); GUIDs and XML map to their
string forms; temporal variants dispatch to `parse_datetime`/`parse_time`;
`Numeric` maps to the float approximation of `numeric.value()`. -/
def parse_value (data : ColumnData) : Except LabeledError Value :=
  match data with
  | .Binary (some val) => .ok (.binary val Span.unknown)
  | .Binary none => .ok (.nothing Span.unknown)
  | .Bit (some val) => .ok (.bool val Span.unknown)
  | .Bit none => .ok (.nothing Span.unknown)
  | .String (some val) => .ok (.string val Span.unknown)
  | .String none => .ok (.nothing Span.unknown)
  | .U8 (some val) => .ok (.int (val : Int) Span.unknown)
  | .U8 none => .ok (.nothing Span.unknown)
  | .I16 (some val) => .ok (.int val Span.unknown)
  | .I16 none => .ok (.nothing Span.unknown)
  | .I32 (some val) => .ok (.int val Span.unknown)
  | .I32 none => .ok (.nothing Span.unknown)
  | .I64 (some val) => .ok (.int val Span.unknown)
  | .I64 none => .ok (.nothing Span.unknown)
  | .F32 (some val) => .ok (.float (.ofF32 val) Span.unknown)
  | .F32 none => .ok (.nothing Span.unknown)
  | .F64 (some val) => .ok (.float (.ofF64 val) Span.unknown)
  | .F64 none => .ok (.nothing Span.unknown)
  | .Date (some _) => parse_datetime data
  | .Date none => .ok (.nothing Span.unknown)
  | .Time (some time) => parse_time time
  | .Time none => .ok (.nothing Span.unknown)
  | .DateTime (some _) => parse_datetime data
  | .DateTime none => .ok (.nothing Span.unknown)
  | .DateTime2 (some _) => parse_datetime data
  | .DateTime2 none => .ok (.nothing Span.unknown)
  | .DateTimeOffset (some _) => parse_datetime data
  | .DateTimeOffset none => .ok (.nothing Span.unknown)
  | .SmallDateTime (some _) => parse_datetime data
  | .SmallDateTime none => .ok (.nothing Span.unknown)
  | .Guid (some guid) => .ok (.string guid Span.unknown)
  | .Guid none => .ok (.nothing Span.unknown)
  | .Numeric (some numeric) => .ok (.float (.ofNumeric numeric.value) Span.unknown)
  | .Numeric none => .ok (.nothing Span.unknown)
  | .Xml (some xml) => .ok (.string xml Span.unknown)
  | .Xml none => .ok (.nothing Span.unknown)

end DataDb

namespace Db

/-- Embeds `parse_date` of `src/db.rs` (lines 115-134), which is the same
decode-then-zero-offset step as `DataDb.parse_datetime`. -/
def parse_date (data : ColumnData) : Except LabeledError Value :=
  match NaiveDateTime.from_sql data with
  | .ok (some naive) => .ok (.date naive 0 Span.unknown)
  | .ok none => .error ⟨"Failed to parse datetime", [("Invalid datetime", Span.unknown)]⟩
  | .error e => .error ⟨"Failed to parse datetime", [(e, Span.unknown)]⟩

/-- Embeds `parse_value` of `src/db.rs` (lines 101-113), the older marshaller:
only non-null binary, string, 32-bit integer, 32-bit float and
datetime-with-precision cells are handled; every other cell — null payloads
included — is a marshalling error carrying the cell's `Debug` rendering. -/
def parse_value (data : ColumnData) : Except LabeledError Value :=
  match data with
  | .Binary (some val) => .ok (.binary val Span.unknown)
  | .String (some val) => .ok (.string val Span.unknown)
  | .I32 (some val) => .ok (.int val Span.unknown)
  | .F32 (some val) => .ok (.float (.ofF32 val) Span.unknown)
  | .DateTime2 (some _) => parse_date data
  | other => .error ⟨"Failed to parse value: " ++ other.debugString, []⟩

end Db

/-- How the background producer task finishes: it either runs off the end of
the row stream and returns (dropping the sender, which closes the channel), or
it hits a `panic!` — on a row-stream error or a marshalling error — and
unwinds without sending anything further (the unwound sender is likewise
dropped, closing the channel without any error item on it). -/
inductive Outcome where
  | completed
  | aborted (error : LabeledError)
deriving DecidableEq, Repr

/-- Test for the panicking outcome. -/
def Outcome.isAborted : Outcome → Bool
  | .aborted _ => true
  | .completed => false

/-- Embeds the cell loop shared verbatim by `run_query` (`src/db.rs` lines
172-186) and `MssqlClient::run_query` (`src/data/mssql_client.rs` lines
63-77), parameterised by the marshaller `pv` each file uses: each cell of the
row is marshalled and inserted into the record under its column name; the
first marshalling failure aborts the whole row with that error (the source
panics there). -/
def buildRecord (pv : ColumnData → Except LabeledError Value) :
    List (String × ColumnData) → Record → Except LabeledError Record
  | [], acc => .ok acc
  | (col, cell) :: rest, acc =>
    match pv cell with
    | .ok value => buildRecord pv rest (acc.insert col value)
    | .error e => .error e

/-- Embeds the row loop shared by `run_query` (`src/db.rs` lines 171-199) and
`MssqlClient::run_query` (`src/data/mssql_client.rs` lines 61-88), again
parameterised by the marshaller: the input is the sequence of row results the
protocol stream yields, and the output is the list of records pushed into the
channel, in order, together with how the task finished.  A row-stream error or
a marshalling error panics the task: nothing of the offending row and nothing
after it is ever sent.  The model covers executions in which the consumer
keeps its receiver open, so `sender.send` never fails (the source's
closed-sender early return is the abandonment path, outside every claim
below). -/
def runQueryCore (pv : ColumnData → Except LabeledError Value) :
    List (Except String (List (String × ColumnData))) → List Record × Outcome
  | [] => ([], .completed)
  | .error e :: _ => ([], .aborted ⟨"Error: " ++ e, []⟩)
  | .ok row :: rest =>
    match buildRecord pv row Record.new with
    | .error e => ([], .aborted e)
    | .ok rec =>
      let (sent, out) := runQueryCore pv rest
      (rec :: sent, out)

/-- Embeds the streaming part of `run_query` of `src/db.rs` (lines 155-200):
the old pipeline, marshalling with `Db.parse_value` and sending `Record`s.
The connection preamble (`create_client`, query submission) performs network
I/O; the model covers the path where it succeeded and the row stream is the
given list. -/
def Db.run_query (rows : List (Except String (List (String × ColumnData)))) :
    List Record × Outcome :=
  runQueryCore Db.parse_value rows

/-- Wrapping applied to each record before it reaches the consumer:
`Value::record(record, Span::unknown())` — done by the producer itself in
`MssqlClient::run_query`, and by `TableIterator::next` of `src/db.rs` in the
old pipeline.  Either way the consumer-visible item is the same. -/
def wrapRecord (r : Record) : Value :=
  Value.record r Span.unknown

/-- Embeds the streaming part of `MssqlClient::run_query`
(`src/data/mssql_client.rs` lines 32-91): marshals with `DataDb.parse_value`
and sends each record already wrapped as a `Value`.  The model covers the path
where the client handle is present and uniquely held and the query submission
succeeded (the other paths return before sending anything). -/
def MssqlClient.run_query (rows : List (Except String (List (String × ColumnData)))) :
    List Value × Outcome :=
  ((runQueryCore DataDb.parse_value rows).1.map wrapRecord,
    (runQueryCore DataDb.parse_value rows).2)

/-- State of the bounded producer/consumer channel
(`async_std::channel::bounded(buffer_size)`) together with both endpoints'
progress: `pending` is what the producer still has to send, `buffer` the items
currently queued (FIFO), `closed` whether the sender has been dropped, and
`received` everything the consumer has pulled so far, in order. -/
structure ChanState where
  pending : List Value
  buffer : List Value
  closed : Bool
  received : List Value

/-- One scheduler step of the streaming pipeline with channel capacity `n`:
the producer may send its next item when the queue holds fewer than `n` items
(it blocks on a full queue — backpressure), and drops the sender once it has
nothing left to send; the consumer (`TableIterator::next`, i.e.
`recv_blocking`) may take the queue's front item (it blocks on an empty open
queue).  Every interleaving of these steps is admitted. -/
inductive ChanStep (n : Nat) : ChanState → ChanState → Prop where
  | send (x : Value) (rest buf recv : List Value) :
      buf.length < n →
      ChanStep n ⟨x :: rest, buf, false, recv⟩ ⟨rest, buf ++ [x], false, recv⟩
  | close (buf recv : List Value) :
      ChanStep n ⟨[], buf, false, recv⟩ ⟨[], buf, true, recv⟩
  | recv (x : Value) (pend buf recv : List Value) (closed : Bool) :
      ChanStep n ⟨pend, x :: buf, closed, recv⟩ ⟨pend, buf, closed, recv ++ [x]⟩

/-- Reachability under any finite interleaving of channel steps. -/
def chanReach (n : Nat) : ChanState → ChanState → Prop :=
  Relation.ReflTransGen (ChanStep n)

/-- Initial pipeline state: the producer is about to send `sent`, the queue is
empty and open, the consumer has seen nothing. -/
def chanInit (sent : List Value) : ChanState :=
  ⟨sent, [], false, []⟩

/-- A finished pipeline: the producer sent everything and dropped the sender,
and the consumer drained the queue. -/
def chanFinal (s : ChanState) : Prop :=
  s.pending = [] ∧ s.buffer = [] ∧ s.closed = true

/-- Embeds `TableIterator::next` (`src/data/db.rs` lines 97-106) as observed at
a quiescent state: `recv_blocking` returns the queue's front item if one is
queued, returns the closed-channel error — i.e. the iterator yields `none` —
if the queue is empty and the sender was dropped, and blocks (no observation)
on an empty open queue, for which the model returns the empty queue's `head?`,
namely `none`, never consulted by the theorems below at such states. -/
def TableIterator.next (s : ChanState) : Option Value :=
  match s.buffer with
  | x :: _ => some x
  | [] => if s.closed then none else none

theorem chanStep_invariant {n : Nat} {s t : ChanState} (h : ChanStep n s t) :
    t.received ++ t.buffer ++ t.pending = s.received ++ s.buffer ++ s.pending := by
  cases h <;> simp

theorem chanReach_invariant {n : Nat} {s t : ChanState} (h : chanReach n s t) :
    t.received ++ t.buffer ++ t.pending = s.received ++ s.buffer ++ s.pending := by
  induction h with
  | refl => rfl
  | tail _ hstep ih => rw [chanStep_invariant hstep, ih]

theorem chanStep_closed_mono {n : Nat} {s t : ChanState} (h : ChanStep n s t) :
    s.closed = true → t.closed = true := by
  cases h <;> simp_all

theorem chanReach_final_received {n : Nat} {sent : List Value} {t : ChanState}
    (h : chanReach n (chanInit sent) t) (hf : chanFinal t) :
    t.received = sent := by
  have hinv := chanReach_invariant h
  simp only [chanInit] at hinv
  obtain ⟨h1, h2, _⟩ := hf
  simpa [h1, h2] using hinv

theorem chanReach_completes_from {n : Nat} (hn : 1 ≤ n) :
    ∀ (pend recv : List Value),
      chanReach n ⟨pend, [], false, recv⟩ ⟨[], [], true, recv ++ pend⟩ := by
  intro pend
  induction pend with
  | nil =>
    intro recv
    simpa using Relation.ReflTransGen.single (ChanStep.close [] recv)
  | cons x rest ih =>
    intro recv
    have h1 : ChanStep n ⟨x :: rest, [], false, recv⟩ ⟨rest, [x], false, recv⟩ := by
      simpa using ChanStep.send x rest [] recv (by simpa using hn)
    have h2 : ChanStep n ⟨rest, [x], false, recv⟩ ⟨rest, [], false, recv ++ [x]⟩ :=
      ChanStep.recv x rest [] recv false
    have h3 := ih (recv ++ [x])
    rw [List.append_assoc] at h3
    simp only [List.singleton_append] at h3
    exact Relation.ReflTransGen.head h1 (Relation.ReflTransGen.head h2 h3)

theorem chanReach_completes {n : Nat} (hn : 1 ≤ n) (sent : List Value) :
    chanReach n (chanInit sent) ⟨[], [], true, sent⟩ := by
  simpa [chanInit] using chanReach_completes_from hn sent []

/-- Embeds the `Debug` rendering of `Value::as_str()`'s result, which
`handle_err` interpolates into the login-failure message: `Ok("..")` for a
string value, an error rendering otherwise. -/
def Value.as_str_debug : Value → String
  | .string s _ => "Ok(\"" ++ s ++ "\")"
  | _ => "Err(cast error)"

/-- Flattening of a `LabeledError` (message plus labels) into one string, used
where the embedded code wraps the whole error into a single error `Value`; the
rendering keeps every part of the error, so equalities over it are equalities
of the full error content. -/
def LabeledError.render (e : LabeledError) : String :=
  e.msg ++ " | " ++ toString (e.labels.map fun l => l.1 ++ " @ " ++ l.2.debugString)

/-- Embeds `QuerySource` (`src/data/query_args.rs`): literal query text or a
file path, each with its source location. -/
inductive QuerySource where
  | Query (text : String) (span : Span)
  | File (path : String) (span : Span)
deriving DecidableEq, Repr

/-- Embeds `QueryArgs` (`src/data/query_args.rs`): the query command's
parameters — connection parameters plus the query source. -/
structure QueryArgs where
  server : Option Value
  instanceName : Option Value
  database : Option Value
  user : Option Value
  password : Option Value
  trust_cert : Option Span
  buffer_size : Nat
  source : Option QuerySource

/-- Embeds `handle_err` of `src/commands/mod.rs` (lines 12-52), compiled for
the non-Windows family, where the `tiberius` auth variants `Integrated` and
`Windows` do not exist (they are `cfg(windows)`-gated in the library; the
source keeps a `todo!()` fallback arm for them).  `None` means the source
panics on that path: the `todo!()` fallback, and the
`args.user.as_ref().unwrap()` on a missing user in the `SqlServer` arm.  The
login-failure message interpolates only the user — the `SqlServer` payload,
which carries the password, is matched with `_` and never read. -/
def Commands.handle_err (error : ConnectionError) (args : ConnectionArgs) :
    Option LabeledError :=
  match error with
  | .LoginFailed auth =>
    match auth with
    | .None => some ⟨"Login failed for none auth", []⟩
    | .SqlServer _ _ =>
      match args.user with
      | some u =>
        some ⟨"Login failed for user " ++ u.as_str_debug ++ ", password: <HIDDEN>", []⟩
      | none => none
    | .AADToken _ => some ⟨"AADToken auth not supported", []⟩
    | .Integrated => none
    | .Windows _ _ => none
  | .UserWithoutPassword span =>
    some ⟨"Invalid credentials", [("User specified without password", span)]⟩
  | .SetupError e => some ⟨"Error while setting up connection: " ++ e, []⟩
  | .ConnectionError e => some ⟨"Error while connecting to database: " ++ e, []⟩

/-- Embeds `handle_err` of `src/commands/query.rs` (lines 125-173): the same
error taxonomy, but each error is wrapped into a single error `Value` (at the
call's head span) and sent into the channel as the one terminal item the
consumer sees.  `None` again marks the source's panicking paths (`panic!` on
`AADToken`, the unwrap on a missing user, and the variants absent from the
non-Windows build of the library). -/
def Query.handle_err (error : ConnectionError) (args : QueryArgs)
    (call_head : Span) : Option Value :=
  match error with
  | .LoginFailed auth =>
    match auth with
    | .None => some (.error (LabeledError.render ⟨"Login failed for none auth", []⟩) call_head)
    | .SqlServer _ _ =>
      match args.user with
      | some u =>
        some (.error (LabeledError.render
          ⟨"Login failed for user " ++ u.as_str_debug ++ ", password: <HIDDEN>", []⟩) call_head)
      | none => none
    | .AADToken _ => none
    | .Integrated => none
    | .Windows _ _ => none
  | .UserWithoutPassword span =>
    some (.error (LabeledError.render
      ⟨"Invalid credentials", [("User specified without password", span)]⟩) call_head)
  | .SetupError e =>
    some (.error (LabeledError.render ⟨"Error while setting up connection: " ++ e, []⟩) call_head)
  | .ConnectionError e =>
    some (.error (LabeledError.render ⟨"Error while connecting to database: " ++ e, []⟩) call_head)

/-- Replaces the password component of a sql-server auth method: the vehicle
for stating that an error handler's output is independent of the password the
attempted auth method carries. -/
def AuthMethod.substPassword (p : String) : AuthMethod → AuthMethod
  | .SqlServer u _ => .SqlServer u p
  | other => other

/-- Alias for the connection-error type, usable inside its own namespace where
the variant of the same name shadows it. -/
abbrev ConnErr : Type := ConnectionError

/-- Replaces every password occurring inside a connection error (only the
attempted auth method of a login failure carries one). -/
def ConnectionError.substPassword (p : String) : ConnErr → ConnErr
  | .LoginFailed auth => .LoginFailed (auth.substPassword p)
  | other => other

theorem ConnectionArgs.eq_refl (a : ConnectionArgs) : ConnectionArgs.eq a a = true := by
  simp [ConnectionArgs.eq, optValueEq_refl]

theorem keyMatches_refl (a : ConnectionArgs) : keyMatches a a = true := by
  simp [keyMatches, ConnectionArgs.eq_refl]

theorem PoolMap.get_insert_self (m : PoolMap) (k : ConnectionArgs) (c : Connection) :
    (PoolMap.get (PoolMap.insert m k c) k false).2 = some c := by
  induction m with
  | nil => simp [PoolMap.insert, PoolMap.get, keyMatches_refl]
  | cons hd rest ih =>
    obtain ⟨k', c'⟩ := hd
    by_cases h : keyMatches k' k = true
    · simp [PoolMap.insert, PoolMap.get, h]
    · simp only [PoolMap.insert, PoolMap.get, h, Bool.false_eq_true, if_false]
      simp only [Bool.not_eq_true] at h
      simp [h, ih]

/-- Embeds the `marshalling succeeds for every row` premise of the streaming
claims: marshal each row of the stream to its record, in order, failing at the
first marshalling error — the reference list against which the pipeline's
output is compared. -/
def marshalRows (pv : ColumnData → Except LabeledError Value) :
    List (List (String × ColumnData)) → Except LabeledError (List Record)
  | [] => .ok []
  | r :: rest =>
    match buildRecord pv r Record.new, marshalRows pv rest with
    | .ok rec, .ok recs => .ok (rec :: recs)
    | .error e, _ => .error e
    | .ok _, .error e => .error e

theorem marshalRows_length (pv : ColumnData → Except LabeledError Value)
    (rows : List (List (String × ColumnData))) (recs : List Record)
    (h : marshalRows pv rows = .ok recs) : recs.length = rows.length := by
  induction rows generalizing recs with
  | nil => simp [marshalRows] at h; simp [← h]
  | cons r rest ih =>
    simp only [marshalRows] at h
    cases hb : buildRecord pv r Record.new with
    | error e => rw [hb] at h; cases h
    | ok rec =>
      cases hm : marshalRows pv rest with
      | error e => rw [hb, hm] at h; cases h
      | ok recs' =>
        rw [hb, hm] at h
        cases h
        simp [ih recs' hm]

theorem runQueryCore_ok (pv : ColumnData → Except LabeledError Value)
    (rows : List (List (String × ColumnData))) (recs : List Record)
    (h : marshalRows pv rows = .ok recs) :
    runQueryCore pv (rows.map Except.ok) = (recs, .completed) := by
  induction rows generalizing recs with
  | nil => simp [marshalRows] at h; simp [runQueryCore, ← h]
  | cons r rest ih =>
    simp only [marshalRows] at h
    cases hb : buildRecord pv r Record.new with
    | error e => rw [hb] at h; cases h
    | ok rec =>
      cases hm : marshalRows pv rest with
      | error e => rw [hb, hm] at h; cases h
      | ok recs' =>
        rw [hb, hm] at h
        cases h
        simp [runQueryCore, List.map_cons, hb, ih recs' hm]

theorem parse_value_compat (d : ColumnData) (v : Value)
    (h : Db.parse_value d = .ok v) : DataDb.parse_value d = .ok v := by
  cases d with
  | Binary w => cases w <;> simp_all [Db.parse_value, DataDb.parse_value]
  | String w => cases w <;> simp_all [Db.parse_value, DataDb.parse_value]
  | I32 w => cases w <;> simp_all [Db.parse_value, DataDb.parse_value]
  | F32 w => cases w <;> simp_all [Db.parse_value, DataDb.parse_value]
  | DateTime2 w =>
    cases w <;>
      simp_all [Db.parse_value, DataDb.parse_value, Db.parse_date, DataDb.parse_datetime]
  | _ => simp_all [Db.parse_value]

theorem buildRecord_compat (cells : List (String × ColumnData)) (acc rec : Record)
    (h : buildRecord Db.parse_value cells acc = .ok rec) :
    buildRecord DataDb.parse_value cells acc = .ok rec := by
  induction cells generalizing acc with
  | nil => simpa [buildRecord] using h
  | cons cell rest ih =>
    obtain ⟨col, data⟩ := cell
    simp only [buildRecord] at h ⊢
    cases hp : Db.parse_value data with
    | error e => rw [hp] at h; cases h
    | ok v =>
      rw [hp] at h
      rw [parse_value_compat data v hp]
      exact ih _ h

theorem marshalRows_compat (rows : List (List (String × ColumnData))) (recs : List Record)
    (h : marshalRows Db.parse_value rows = .ok recs) :
    marshalRows DataDb.parse_value rows = .ok recs := by
  induction rows generalizing recs with
  | nil => simpa [marshalRows] using h
  | cons r rest ih =>
    simp only [marshalRows] at h ⊢
    cases hb : buildRecord Db.parse_value r Record.new with
    | error e => rw [hb] at h; cases h
    | ok rec =>
      cases hm : marshalRows Db.parse_value rest with
      | error e => rw [hb, hm] at h; cases h
      | ok recs' =>
        rw [hb, hm] at h
        rw [buildRecord_compat r Record.new rec hb, ih recs' hm]
        exact h

theorem wrapped_rows_never_error (recs : List Record) :
    (recs.map wrapRecord).any Value.isError = false := by
  induction recs with
  | nil => rfl
  | cons r rest ih => simp_all [wrapRecord, Value.isError]

/-- Claim C7 (counterexample): decoding the time-of-day wire value with
increments = 5,000,000 and scale = 3 does not yield 5,000,000,000 nanoseconds;
the code's formula `increments * 10^(9 - scale)` yields 5,000,000,000,000. -/
theorem c7_counterexample :
    DataDb.parse_time ⟨5000000, 3⟩
      = Except.ok (Value.duration 5000000000000 Span.unknown)
    ∧ (5000000000000 : Int) ≠ (5000000000 : Int) := by
  exact ⟨by norm_num [DataDb.parse_time], by norm_num⟩

/-- Claim C7 (as amended): decoding a time-of-day wire value with
increments = 5,000,000 and scale = 3 yields a duration of exactly
5,000,000,000,000 nanoseconds (5,000,000 milliseconds). -/
theorem c7_time_decode :
    DataDb.parse_time ⟨5000000, 3⟩
      = Except.ok (Value.duration 5000000000000 Span.unknown) := by
  norm_num [DataDb.parse_time]

/-- Claim C8: the value marshaller of `src/data/db.rs` maps the null case of
every one of the eighteen wire variants to the nothing value, and maps every
non-null binary cell to a binary blob with byte-identical contents. -/
theorem c8_marshaller_null_and_binary :
    (∀ bs : List Nat,
      DataDb.parse_value (.Binary (some bs)) = .ok (.binary bs Span.unknown))
    ∧ DataDb.parse_value (.Binary none) = .ok (.nothing Span.unknown)
    ∧ DataDb.parse_value (.Bit none) = .ok (.nothing Span.unknown)
    ∧ DataDb.parse_value (.String none) = .ok (.nothing Span.unknown)
    ∧ DataDb.parse_value (.U8 none) = .ok (.nothing Span.unknown)
    ∧ DataDb.parse_value (.I16 none) = .ok (.nothing Span.unknown)
    ∧ DataDb.parse_value (.I32 none) = .ok (.nothing Span.unknown)
    ∧ DataDb.parse_value (.I64 none) = .ok (.nothing Span.unknown)
    ∧ DataDb.parse_value (.F32 none) = .ok (.nothing Span.unknown)
    ∧ DataDb.parse_value (.F64 none) = .ok (.nothing Span.unknown)
    ∧ DataDb.parse_value (.Date none) = .ok (.nothing Span.unknown)
    ∧ DataDb.parse_value (.Time none) = .ok (.nothing Span.unknown)
    ∧ DataDb.parse_value (.DateTime none) = .ok (.nothing Span.unknown)
    ∧ DataDb.parse_value (.DateTime2 none) = .ok (.nothing Span.unknown)
    ∧ DataDb.parse_value (.DateTimeOffset none) = .ok (.nothing Span.unknown)
    ∧ DataDb.parse_value (.SmallDateTime none) = .ok (.nothing Span.unknown)
    ∧ DataDb.parse_value (.Guid none) = .ok (.nothing Span.unknown)
    ∧ DataDb.parse_value (.Numeric none) = .ok (.nothing Span.unknown)
    ∧ DataDb.parse_value (.Xml none) = .ok (.nothing Span.unknown) :=
  ⟨fun _ => rfl, rfl, rfl, rfl, rfl, rfl, rfl, rfl, rfl, rfl, rfl, rfl, rfl,
    rfl, rfl, rfl, rfl, rfl, rfl⟩

/-- Claim C10: the `Hash` implementation of `ConnectionArgs` is inconsistent
with its `PartialEq` implementation.  The two keys below differ only in the
span inside the server value; `ConnectionArgs::eq` holds (value equality
ignores spans) yet they feed different data to the hasher, because the hash
uses the `Debug` rendering of the value, which includes the span.  A hash map
keyed this way can miss an entry equal to the probe key — the consistency the
pool's lookup relies on fails. -/
theorem c10_hash_inconsistent_with_eq :
    ConnectionArgs.eq
        ⟨some (.string "localhost" ⟨0, 0⟩), none, none, none, none, none, 10, 0⟩
        ⟨some (.string "localhost" ⟨0, 1⟩), none, none, none, none, none, 10, 0⟩
      = true
    ∧ ConnectionArgs.hashInput
        ⟨some (.string "localhost" ⟨0, 0⟩), none, none, none, none, none, 10, 0⟩
      ≠ ConnectionArgs.hashInput
        ⟨some (.string "localhost" ⟨0, 1⟩), none, none, none, none, none, 10, 0⟩ := by
  exact ⟨rfl, by decide⟩

/-- Claim C2 (counterexample): two keys that agree on server, instance,
database, user, trust-certificate flag and buffer size but differ in password
are not equal under `ConnectionArgs::eq` — the implementation does compare
`password`, so pool lookup does depend on it. -/
theorem c2_counterexample :
    ConnectionArgs.eq
        ⟨some (.string "localhost" ⟨0, 0⟩), none, none, some (.string "sa" ⟨0, 0⟩),
          some (.string "p1" ⟨0, 0⟩), none, 10, 0⟩
        ⟨some (.string "localhost" ⟨0, 0⟩), none, none, some (.string "sa" ⟨0, 0⟩),
          some (.string "p2" ⟨0, 0⟩), none, 10, 0⟩
      = false
    ∧ ("p1" : String) ≠ ("p2" : String) := by
  exact ⟨rfl, by decide⟩

/-- Claim C2 (as amended): two connection keys are equal under
`ConnectionArgs::eq` if and only if every field except `reference_count` —
the password included — is equal, where the optional value fields compare up
to the spans inside the values (nu value equality ignores spans).  Pool lookup
therefore does depend on the password. -/
theorem c2_eq_characterisation (a b : ConnectionArgs) :
    ConnectionArgs.eq a b = true ↔
      (a.server.map Value.stripSpans = b.server.map Value.stripSpans
       ∧ a.instanceName.map Value.stripSpans = b.instanceName.map Value.stripSpans
       ∧ a.database.map Value.stripSpans = b.database.map Value.stripSpans
       ∧ a.user.map Value.stripSpans = b.user.map Value.stripSpans
       ∧ a.password.map Value.stripSpans = b.password.map Value.stripSpans
       ∧ a.trust_cert = b.trust_cert
       ∧ a.buffer_size = b.buffer_size) := by
  simp [ConnectionArgs.eq, optValueEq_iff, and_assoc]

/-- Claim C1 (counterexample): with the pool's map already holding the
connection with session 1 for the key, `create_connection` of a connection
with session 2 for the same key returns the new connection and leaves the new
connection — not the pre-existing one — in the map. -/
theorem c1_counterexample :
    (ConnectionPool.create_connection
        [(⟨none, none, none, none, none, none, 10, 0⟩, ⟨1, 0⟩)]
        ⟨none, none, none, none, none, none, 10, 0⟩ ⟨2, 0⟩).2 = ⟨2, 0⟩
    ∧ (PoolMap.get
        (ConnectionPool.create_connection
          [(⟨none, none, none, none, none, none, 10, 0⟩, ⟨1, 0⟩)]
          ⟨none, none, none, none, none, none, 10, 0⟩ ⟨2, 0⟩).1
        ⟨none, none, none, none, none, none, 10, 0⟩ false).2 = some ⟨2, 0⟩
    ∧ (⟨1, 0⟩ : Connection) ≠ (⟨2, 0⟩ : Connection) := by
  exact ⟨rfl, rfl, by decide⟩

/-- Claim C1 (as amended): `create_connection` always inserts its newly built
connection, replacing any existing entry for the key (`HashMap::insert`
overwrites), and returns the new connection — last writer wins; a pre-existing
entry is discarded, not returned. -/
theorem c1_create_last_writer_wins (m : PoolMap) (k : ConnectionArgs) (c : Connection) :
    (ConnectionPool.create_connection m k c).2 = c
    ∧ (PoolMap.get (ConnectionPool.create_connection m k c).1 k false).2 = some c :=
  ⟨rfl, PoolMap.get_insert_self m k c⟩

/-- Claim C5 (counterexample): for a parameter set whose password is present
and whose username is absent, `ConnectionSettings::get_auth_method`
(`src/data/connection.rs`) does raise an error — an invalid-credentials error
labelled at the password's span — instead of choosing the `"sa"` default. -/
theorem c5_counterexample :
    ConnectionSettings.get_auth_method
        ⟨none, none, none, none, some (.string "secret" ⟨4, 10⟩), none, 10⟩
      = Except.error
          ⟨"Invalid credentials",
            [("Password specified without username", ⟨4, 10⟩)]⟩ := rfl

/-- Claim C5 (as amended): for every parameter set in which a (string)
password is present and a username is absent, the pool's configuration
building (`get_auth_method` of `src/data/connection_pool.rs`) chooses
password-based authentication with the default username `"sa"` and the given
password, raising no error; `ConnectionSettings::get_auth_method` of
`src/data/connection.rs` instead rejects the same credential shape with an
invalid-credentials error labelled at the password's span. -/
theorem c5_sa_default_vs_settings_reject (args : ConnectionArgs)
    (settings : ConnectionSettings) (p : String) (sp : Span) (q : Value)
    (h1 : args.user = none) (h2 : args.password = some (.string p sp))
    (h3 : settings.user = none) (h4 : settings.password = some q) :
    Pool.get_auth_method args = .ok (.SqlServer "sa" p)
    ∧ ConnectionSettings.get_auth_method settings
        = .error ⟨"Invalid credentials",
            [("Password specified without username", q.span)]⟩ := by
  constructor
  · unfold Pool.get_auth_method
    rw [h1, h2]
  · unfold ConnectionSettings.get_auth_method
    rw [h3, h4]

/-- Claim C5 (witness): the amended claim instantiated at a concrete parameter
set with password `"secret"` and no username. -/
theorem c5_sa_default_vs_settings_reject_witness :
    ((⟨none, none, none, none, some (.string "secret" ⟨4, 10⟩), none, 10, 0⟩ : ConnectionArgs).user = none
     ∧ (⟨none, none, none, none, some (.string "secret" ⟨4, 10⟩), none, 10, 0⟩ : ConnectionArgs).password
         = some (.string "secret" ⟨4, 10⟩)
     ∧ (⟨none, none, none, none, some (.string "secret" ⟨4, 10⟩), none, 10⟩ : ConnectionSettings).user = none
     ∧ (⟨none, none, none, none, some (.string "secret" ⟨4, 10⟩), none, 10⟩ : ConnectionSettings).password
         = some (.string "secret" ⟨4, 10⟩))
    ∧ (Pool.get_auth_method ⟨none, none, none, none, some (.string "secret" ⟨4, 10⟩), none, 10, 0⟩
         = .ok (.SqlServer "sa" "secret")
       ∧ ConnectionSettings.get_auth_method
           ⟨none, none, none, none, some (.string "secret" ⟨4, 10⟩), none, 10⟩
         = .error ⟨"Invalid credentials",
             [("Password specified without username", (Value.string "secret" ⟨4, 10⟩).span)]⟩) :=
  ⟨⟨rfl, rfl, rfl, rfl⟩,
    c5_sa_default_vs_settings_reject _ _ "secret" ⟨4, 10⟩ _ rfl rfl rfl rfl⟩

/-- Claim C6: for every parameter set in which a username is present and a
password is absent, configuration building fails with the credential-shape
error carrying the username value's span, regardless of all other parameters:
the pool's `get_auth_method` returns `UserWithoutPassword` with the username's
span, and `get_auth_method` of `src/db.rs` returns the invalid-credentials
error labelled `Username specified without password` at the username's span. -/
theorem c6_user_without_password (args : ConnectionArgs)
    (settings : ConnectionSettings) (u w : Value)
    (h1 : args.user = some u) (h2 : args.password = none)
    (h3 : settings.user = some w) (h4 : settings.password = none) :
    Pool.get_auth_method args = .error (.UserWithoutPassword u.span)
    ∧ Db.get_auth_method settings
        = .error ⟨"Invalid credentials",
            [("Username specified without password", w.span)]⟩ := by
  constructor
  · unfold Pool.get_auth_method
    rw [h1, h2]
    cases u <;> rfl
  · unfold Db.get_auth_method
    rw [h3, h4]
    cases w <;> rfl

/-- Claim C6 (witness): the claim instantiated at a concrete parameter set
with username `"alice"` (at span 7-12) and no password, with unrelated
parameters set arbitrarily. -/
theorem c6_user_without_password_witness :
    ((⟨some (.string "h" ⟨0, 1⟩), none, some (.string "master" ⟨2, 3⟩),
        some (.string "alice" ⟨7, 12⟩), none, some ⟨5, 6⟩, 25, 0⟩ : ConnectionArgs).user
        = some (.string "alice" ⟨7, 12⟩)
     ∧ (⟨some (.string "h" ⟨0, 1⟩), none, some (.string "master" ⟨2, 3⟩),
        some (.string "alice" ⟨7, 12⟩), none, some ⟨5, 6⟩, 25, 0⟩ : ConnectionArgs).password = none
     ∧ (⟨none, none, none, some (.string "alice" ⟨7, 12⟩), none, none, 10⟩ : ConnectionSettings).user
        = some (.string "alice" ⟨7, 12⟩)
     ∧ (⟨none, none, none, some (.string "alice" ⟨7, 12⟩), none, none, 10⟩ : ConnectionSettings).password
        = none)
    ∧ (Pool.get_auth_method
         ⟨some (.string "h" ⟨0, 1⟩), none, some (.string "master" ⟨2, 3⟩),
           some (.string "alice" ⟨7, 12⟩), none, some ⟨5, 6⟩, 25, 0⟩
         = .error (.UserWithoutPassword ((Value.string "alice" ⟨7, 12⟩)).span)
       ∧ Db.get_auth_method ⟨none, none, none, some (.string "alice" ⟨7, 12⟩), none, none, 10⟩
         = .error ⟨"Invalid credentials",
             [("Username specified without password", ((Value.string "alice" ⟨7, 12⟩)).span)]⟩) :=
  ⟨⟨rfl, rfl, rfl, rfl⟩,
    c6_user_without_password _ _ _ _ rfl rfl rfl rfl⟩

/-- Claim C9: the user-visible error messages built by the two `handle_err`
functions are independent of the password — formalised as noninterference:
replacing the password parameter and the password carried inside the attempted
auth method of a login failure, by any two values, yields identical handler
output (identical full error content, labels included), so no output of either
handler can contain the password in cleartext except by coincidence with
password-independent data. -/
theorem c9_password_noninterference (e : ConnectionError) (args : ConnectionArgs)
    (qargs : QueryArgs) (call_head : Span) (p₁ p₂ : String) (pv₁ pv₂ : Option Value) :
    Commands.handle_err (ConnectionError.substPassword p₁ e) { args with password := pv₁ }
      = Commands.handle_err (ConnectionError.substPassword p₂ e) { args with password := pv₂ }
    ∧ Query.handle_err (ConnectionError.substPassword p₁ e) { qargs with password := pv₁ } call_head
      = Query.handle_err (ConnectionError.substPassword p₂ e) { qargs with password := pv₂ } call_head := by
  constructor
  · cases e with
    | LoginFailed auth => cases auth <;> rfl
    | UserWithoutPassword sp => rfl
    | SetupError s => rfl
    | ConnectionError s => rfl
  · cases e with
    | LoginFailed auth => cases auth <;> rfl
    | UserWithoutPassword sp => rfl
    | SetupError s => rfl
    | ConnectionError s => rfl

theorem runQueryCore_abort (pv : ColumnData → Except LabeledError Value)
    (pre : List (List (String × ColumnData)))
    (bad : List (String × ColumnData))
    (post : List (Except String (List (String × ColumnData))))
    (recs : List Record) (e : LabeledError)
    (h1 : marshalRows pv pre = .ok recs)
    (h2 : buildRecord pv bad Record.new = .error e) :
    runQueryCore pv (pre.map Except.ok ++ Except.ok bad :: post) = (recs, .aborted e) := by
  induction pre generalizing recs with
  | nil =>
    simp [marshalRows] at h1
    simp [runQueryCore, h2, ← h1]
  | cons r rest ih =>
    simp only [marshalRows] at h1
    cases hb : buildRecord pv r Record.new with
    | error e' => rw [hb] at h1; cases h1
    | ok rec =>
      cases hm : marshalRows pv rest with
      | error e' => rw [hb, hm] at h1; cases h1
      | ok recs' =>
        rw [hb, hm] at h1
        cases h1
        simp [runQueryCore, List.map_cons, hb, ih recs' hm]

/-- Claim C3: for every query execution producing `K` result rows (all of
which marshal successfully) and every buffer capacity of at least one, the
pipeline delivers exactly the `K` marshalled rows, in server order, to the
consumer, and then end-of-stream: the producer (`run_query` of `src/db.rs`,
and likewise `MssqlClient::run_query`) sends exactly the `K` records in order
and completes; every interleaved execution of the bounded channel that
finishes (producer done, queue drained, sender dropped) has the consumer
receive exactly that sequence, after which `TableIterator::next` yields
`none`; and with capacity at least one such a finishing execution exists. -/
theorem c3_streams_k_rows_in_order
    (rows : List (List (String × ColumnData))) (recs : List Record) (n : Nat)
    (hn : 1 ≤ n) (h : marshalRows Db.parse_value rows = .ok recs) :
    Db.run_query (rows.map Except.ok) = (recs, .completed)
    ∧ MssqlClient.run_query (rows.map Except.ok) = (recs.map wrapRecord, .completed)
    ∧ recs.length = rows.length
    ∧ (∀ s, chanReach n (chanInit (recs.map wrapRecord)) s → chanFinal s →
        s.received = recs.map wrapRecord ∧ TableIterator.next s = none)
    ∧ chanReach n (chanInit (recs.map wrapRecord)) ⟨[], [], true, recs.map wrapRecord⟩
    ∧ chanFinal ⟨[], [], true, recs.map wrapRecord⟩ := by
  refine ⟨?_, ?_, marshalRows_length _ _ _ h, ?_, ?_, rfl, rfl, rfl⟩
  · exact runQueryCore_ok _ _ _ h
  · have hm := runQueryCore_ok _ _ _ (marshalRows_compat _ _ h)
    simp [MssqlClient.run_query, hm]
  · intro s hr hf
    refine ⟨chanReach_final_received hr hf, ?_⟩
    have hb : s.buffer = [] := hf.2.1
    simp [TableIterator.next, hb]
  · exact chanReach_completes hn _

/-- Claim C3 (witness): the streaming theorem instantiated at the two-row
query of the spec's scenario (`Count` = 1 then 2) with buffer capacity 1. -/
theorem c3_streams_k_rows_in_order_witness :
    (1 ≤ 1
     ∧ marshalRows Db.parse_value
        [[("Count", ColumnData.I32 (some 1))], [("Count", ColumnData.I32 (some 2))]]
        = .ok [[("Count", Value.int 1 Span.unknown)], [("Count", Value.int 2 Span.unknown)]])
    ∧ (Db.run_query
        ([[("Count", ColumnData.I32 (some 1))], [("Count", ColumnData.I32 (some 2))]].map Except.ok)
        = ([[("Count", Value.int 1 Span.unknown)], [("Count", Value.int 2 Span.unknown)]], .completed)
      ∧ MssqlClient.run_query
          ([[("Count", ColumnData.I32 (some 1))], [("Count", ColumnData.I32 (some 2))]].map Except.ok)
          = (([[("Count", Value.int 1 Span.unknown)], [("Count", Value.int 2 Span.unknown)]] : List Record).map wrapRecord, .completed)
      ∧ ([[("Count", Value.int 1 Span.unknown)], [("Count", Value.int 2 Span.unknown)]] : List Record).length
          = [[("Count", ColumnData.I32 (some 1))], [("Count", ColumnData.I32 (some 2))]].length
      ∧ (∀ s, chanReach 1 (chanInit (([[("Count", Value.int 1 Span.unknown)], [("Count", Value.int 2 Span.unknown)]] : List Record).map wrapRecord)) s → chanFinal s →
          s.received = ([[("Count", Value.int 1 Span.unknown)], [("Count", Value.int 2 Span.unknown)]] : List Record).map wrapRecord
          ∧ TableIterator.next s = none)
      ∧ chanReach 1 (chanInit (([[("Count", Value.int 1 Span.unknown)], [("Count", Value.int 2 Span.unknown)]] : List Record).map wrapRecord))
          ⟨[], [], true, ([[("Count", Value.int 1 Span.unknown)], [("Count", Value.int 2 Span.unknown)]] : List Record).map wrapRecord⟩
      ∧ chanFinal ⟨[], [], true, ([[("Count", Value.int 1 Span.unknown)], [("Count", Value.int 2 Span.unknown)]] : List Record).map wrapRecord⟩) :=
  ⟨⟨Nat.le_refl 1, rfl⟩,
    c3_streams_k_rows_in_order
      [[("Count", ColumnData.I32 (some 1))], [("Count", ColumnData.I32 (some 2))]]
      [[("Count", Value.int 1 Span.unknown)], [("Count", Value.int 2 Span.unknown)]]
      1 (Nat.le_refl 1) rfl⟩

/-- Claim C4 (counterexample): a row stream whose second row contains a cell
the marshaller rejects (a `Bit` cell, unhandled by `parse_value` of
`src/db.rs`).  The consumer-visible output is exactly the one earlier row —
no partial row — after which the producer panics: the stream carries no error
value at all, so the consumer does not receive a terminal error value. -/
theorem c4_counterexample :
    (Db.run_query [Except.ok [("a", ColumnData.I32 (some 1))],
        Except.ok [("a", ColumnData.I32 (some 2)), ("b", ColumnData.Bit (some true))]]).1
      = [[("a", Value.int 1 Span.unknown)]]
    ∧ Outcome.isAborted
        (Db.run_query [Except.ok [("a", ColumnData.I32 (some 1))],
          Except.ok [("a", ColumnData.I32 (some 2)), ("b", ColumnData.Bit (some true))]]).2
      = true
    ∧ ((Db.run_query [Except.ok [("a", ColumnData.I32 (some 1))],
          Except.ok [("a", ColumnData.I32 (some 2)), ("b", ColumnData.Bit (some true))]]).1.map
            wrapRecord).any Value.isError
      = false :=
  ⟨rfl, rfl, rfl⟩

/-- Claim C4 (as amended): if marshalling any cell of a row fails, no partial
row is emitted and the rows delivered before the failure remain valid — the
consumer-visible output is exactly the fully marshalled earlier rows — but the
producer then panics and the stream simply stops: no terminal error value is
delivered (the pipeline's consumer-visible items are always records, never
error values). -/
theorem c4_marshal_failure_aborts_without_error_value
    (pre : List (List (String × ColumnData)))
    (bad : List (String × ColumnData))
    (post : List (Except String (List (String × ColumnData))))
    (recs : List Record)
    (h1 : marshalRows Db.parse_value pre = .ok recs)
    (h2 : ∃ e, buildRecord Db.parse_value bad Record.new = Except.error e) :
    (Db.run_query (pre.map Except.ok ++ Except.ok bad :: post)).1 = recs
    ∧ Outcome.isAborted (Db.run_query (pre.map Except.ok ++ Except.ok bad :: post)).2 = true
    ∧ (recs.map wrapRecord).any Value.isError = false
    ∧ ∀ (rows : List (Except String (List (String × ColumnData)))) (v : Value),
        v ∈ (MssqlClient.run_query rows).1 → v.isError = false := by
  obtain ⟨e, he⟩ := h2
  have habort := runQueryCore_abort Db.parse_value pre bad post recs e h1 he
  refine ⟨?_, ?_, wrapped_rows_never_error recs, ?_⟩
  · simp [Db.run_query, habort]
  · simp [Db.run_query, habort, Outcome.isAborted]
  · intro rows v hv
    simp only [MssqlClient.run_query, List.mem_map] at hv
    obtain ⟨r, _, hr⟩ := hv
    simp [← hr, wrapRecord, Value.isError]

/-- Claim C4 (witness): the amended theorem instantiated at the concrete
stream of `c4_counterexample` (one good row, then a row with a `Bit` cell). -/
theorem c4_marshal_failure_aborts_without_error_value_witness :
    (marshalRows Db.parse_value [[("a", ColumnData.I32 (some 1))]]
        = .ok [[("a", Value.int 1 Span.unknown)]]
     ∧ ∃ e, buildRecord Db.parse_value
          [("a", ColumnData.I32 (some 2)), ("b", ColumnData.Bit (some true))] Record.new
          = Except.error e)
    ∧ ((Db.run_query ([[("a", ColumnData.I32 (some 1))]].map Except.ok
          ++ Except.ok [("a", ColumnData.I32 (some 2)), ("b", ColumnData.Bit (some true))] :: [])).1
        = [[("a", Value.int 1 Span.unknown)]]
      ∧ Outcome.isAborted (Db.run_query ([[("a", ColumnData.I32 (some 1))]].map Except.ok
          ++ Except.ok [("a", ColumnData.I32 (some 2)), ("b", ColumnData.Bit (some true))] :: [])).2 = true
      ∧ (([[("a", Value.int 1 Span.unknown)]] : List Record).map wrapRecord).any Value.isError = false
      ∧ ∀ (rows : List (Except String (List (String × ColumnData)))) (v : Value),
          v ∈ (MssqlClient.run_query rows).1 → v.isError = false) :=
  ⟨⟨rfl, ⟨_, rfl⟩⟩,
    c4_marshal_failure_aborts_without_error_value
      [[("a", ColumnData.I32 (some 1))]]
      [("a", ColumnData.I32 (some 2)), ("b", ColumnData.Bit (some true))]
      [] [[("a", Value.int 1 Span.unknown)]] rfl ⟨_, rfl⟩⟩
